import Mathlib

/-!
Verification development for the `ui_pameran` fall-detection test harness.

The repository replays a video as a simulated clock and raises a single
"fall" alert when any of several signal sources (a fallback elapsed-time
threshold, a live mmWave MQTT feed) reports a fall, forwarding the alert to
a persistence sink.  This file shallowly embeds the event-arbitration core
of `src/v1.py` (payload classification, the video playback-clock thread,
the mmWave listener, the trigger/dispatch path) and of `src/videomqtt.py`
(the MQTT-publishing variant), and proves the behavioural properties the
specification states about them.
-/

namespace UiPameran

/-- A Python value as it can occur in a decoded JSON/mmWave payload.
Structured sub-values (nested dicts/lists) never match any branch of the
classification code, so they are collapsed into `pyOther`. -/
inductive PyVal where
  | pyInt : Int → PyVal
  | pyBool : Bool → PyVal
  | pyStr : String → PyVal
  | pyNone : PyVal
  | pyOther : PyVal
  deriving DecidableEq, Repr

/-- A decoded payload: a Python `dict` with string keys, modelled as an
association list whose lookup returns the first (unique, for a real dict)
binding. -/
abbrev Payload := List (String × PyVal)

/-- `dict.get(k)`: first binding of `k`, `None` (here `Option.none`) when
the key is absent. -/
def pget : Payload → String → Option PyVal
  | [], _ => none
  | (k, v) :: rest, key => if k = key then some v else pget rest key

/-- `dict[k] = v` (Python item assignment): replace the binding when the
key is present, append it otherwise. -/
def pset (p : Payload) (key : String) (v : PyVal) : Payload :=
  if (pget p key).isSome then
    p.map (fun kv => if kv.1 = key then (key, v) else kv)
  else
    p ++ [(key, v)]

/-- Boolean test that a character list begins with the given needle. -/
def beginsWith : List Char → List Char → Bool
  | [], _ => true
  | _ :: _, [] => false
  | a :: as, b :: bs => a == b && beginsWith as bs

/-- Boolean substring containment on character lists: Python's
`needle in hay`. -/
def containsChars (needle : List Char) : List Char → Bool
  | [] => beginsWith needle []
  | c :: rest => beginsWith needle (c :: rest) || containsChars needle rest

/-- Python `s.lower()`, character-wise (ASCII case folding), as the list
of characters of the lowered string. -/
def strLower (s : String) : List Char :=
  s.data.map Char.toLower

/-- Python `"fall" in s.lower()` (src/v1.py line 71). -/
def strContainsFall (s : String) : Bool :=
  containsChars "fall".data (strLower s)

/-- Python membership test
`payload.get("fall_detected") in (1, True, "1", "true", "TRUE")`
(src/v1.py line 65).  Python `in` compares with `==`, under which
`True == 1`; on this value domain the test reduces to the cases below. -/
def truthyFallDetected : Option PyVal → Bool
  | some (.pyInt n) => n == 1
  | some (.pyBool b) => b
  | some (.pyStr s) => s == "1" || s == "true" || s == "TRUE"
  | _ => false

/-- `payload_is_fall` (src/v1.py lines 59-79): the ordered fall-detection
heuristic over an mmWave payload.  The Python `for` loop over
`("event", "type", "status", "alarm")` returns on the first string value
containing `"fall"` case-insensitively, which is the `List.any` below. -/
def payload_is_fall (p : Payload) : Bool :=
  if truthyFallDetected (pget p "fall_detected") then
    true
  else if ["event", "type", "status", "alarm"].any (fun k =>
      match pget p k with
      | some (.pyStr s) => strContainsFall s
      | _ => false) then
    true
  else
    match pget p "classification" with
    | some (.pyStr s) => strLower s == "fall".data
    | _ => false

/-- The classification predicate as the specification words it: an ordered
four-rule decision.  Rule 1 is stated as literal membership of the field's
value in the documented five-element set; rules 2-4 follow the spec text.
This definition is to be compared with `payload_is_fall`, the embedding of
the code. -/
def spec_is_fall (p : Payload) : Bool :=
  let rule1 :=
    match pget p "fall_detected" with
    | some v => decide (v ∈ [PyVal.pyInt 1, PyVal.pyBool true,
        PyVal.pyStr "1", PyVal.pyStr "true", PyVal.pyStr "TRUE"])
    | none => false
  let rule2 := ["event", "type", "status", "alarm"].any (fun k =>
    match pget p k with
    | some (.pyStr s) => strContainsFall s
    | _ => false)
  let rule3 :=
    match pget p "classification" with
    | some (.pyStr s) => strLower s == "fall".data
    | _ => false
  if rule1 then true else if rule2 then true else rule3

/-! ## The v1 application core (src/v1.py, class `FallAlarmTester`) -/

/-- The alert record built by `trigger_fall` (src/v1.py lines 788-796) and
inserted into the database sink.  `video_sec` keeps the exact rational
elapsed time; the Python `round(..., 3)` display rounding of the float is
not modelled. -/
structure AlertRecord where
  room_id : String
  device_id : String
  video_time : String
  video_sec : ℚ
  source : String
  fall_status : String
  raw : Payload
  deriving DecidableEq, Repr

/-- The state of the `FallAlarmTester` window that the arbitration core
reads and writes: the armed gate, the anti-double-trigger latch, the sink
connection flag, the identity configuration, the mirrored playback time,
the fall-at spin boxes (synchronized on an mmWave trigger), the
`VideoThread.fall_triggered` latch set through `mark_fall_triggered`
(src/v1.py lines 235-239), and the list of alert records dispatched to
the sink so far.  Widgets with no effect on the core are not modelled. -/
structure AppState where
  monitoring_armed : Bool
  fall_triggered : Bool
  db_connected : Bool
  room_id : String
  device_id : String
  current_time_str : String
  current_time_sec : ℚ
  last_frame : Nat
  min_spin : Nat
  sec_spin : Nat
  vt_fall_triggered : Bool
  dispatched : List AlertRecord
  deriving DecidableEq, Repr

/-- The `data` dict built inside `trigger_fall` (src/v1.py lines 788-796). -/
def mkAlertRecord (s : AppState) (source : String) (raw : Payload) : AlertRecord :=
  { room_id := s.room_id
    device_id := s.device_id
    video_time := s.current_time_str
    video_sec := s.current_time_sec
    source := source
    fall_status := "FALL DETECTED"
    raw := raw }

/-- `FallAlarmTester.trigger_fall` (src/v1.py lines 767-813): drop when the
latch is already set; otherwise set the latch, mark the video thread's
latch, synchronize the fall-at spin boxes when the source is mmWave, and
— only when the database is connected — insert one alert record.  When
the database is not connected the code shows an error box and returns
without dispatching (the latch stays set).  Times are non-negative, so
Python's truncating `int(...)` is `Int.toNat ∘ Rat.floor`. -/
def trigger_fall (source : String) (raw : Payload) (s : AppState) : AppState :=
  if s.fall_triggered then s
  else
    let s1 := { s with fall_triggered := true, vt_fall_triggered := true }
    let s2 :=
      if source = "mmwave" then
        let sec_now := (⌊s1.current_time_sec⌋).toNat
        { s1 with min_spin := sec_now / 60, sec_spin := sec_now % 60 }
      else s1
    if s2.db_connected then
      { s2 with dispatched := s2.dispatched ++ [mkAlertRecord s2 source raw] }
    else s2

/-- Result of one inbound live-feed message (src/v1.py lines 522-528),
instrumented with whether the classification predicate was evaluated and
whether the signal was forwarded to `trigger_fall`. -/
structure ListenerTrace where
  state : AppState
  classified : Bool
  forwarded : Bool
  deriving DecidableEq, Repr

/-- `FallAlarmTester.on_mmwave_message` (src/v1.py lines 522-528) with its
control flow instrumented: the armed gate is checked first and, when it
is clear, the handler returns before `payload_is_fall` is ever called;
only a message classified as a fall is forwarded to `trigger_fall`. -/
def on_mmwave_message_traced (payload : Payload) (s : AppState) : ListenerTrace :=
  if !s.monitoring_armed then ⟨s, false, false⟩
  else if payload_is_fall payload then
    ⟨trigger_fall "mmwave" payload s, true, true⟩
  else ⟨s, true, false⟩

/-- The state update performed by `on_mmwave_message`. -/
def on_mmwave_message (payload : Payload) (s : AppState) : AppState :=
  (on_mmwave_message_traced payload s).state

/-- One call into the arbitration core during a session: a direct
`trigger_fall` call, as made by the fallback-timer lambda
(src/v1.py lines 711-713) or any other caller, or an inbound mmWave
message handled by `on_mmwave_message`. -/
inductive SessionEvent where
  | triggerCall : String → Payload → SessionEvent
  | mmwaveMessage : Payload → SessionEvent
  deriving DecidableEq, Repr

def sessionStep (s : AppState) : SessionEvent → AppState
  | .triggerCall src p => trigger_fall src p s
  | .mmwaveMessage p => on_mmwave_message p s

/-- A monitoring session: any interleaving (as serialized by the Qt event
loop) of trigger calls and mmWave messages between arm and stop/re-arm. -/
def runSession (s : AppState) (evs : List SessionEvent) : AppState :=
  evs.foldl sessionStep s

/-- `FallAlarmTester.stop_video` (src/v1.py lines 717-737): stop the video
thread, then unconditionally reset the frame position, the trigger latch,
the displayed and numeric elapsed time, and the armed gate.  It inserts
nothing into the sink. -/
def stop_video (s : AppState) : AppState :=
  { s with monitoring_armed := false
           last_frame := 0
           fall_triggered := false
           current_time_sec := 0
           current_time_str := "00:00" }

/-- A concrete state used to instantiate theorems: armed monitoring just
started, sink connected, nothing dispatched. -/
def armedState : AppState :=
  { monitoring_armed := true
    fall_triggered := false
    db_connected := true
    room_id := "ROOM_01"
    device_id := "CAM_001"
    current_time_str := "00:05"
    current_time_sec := 5
    last_frame := 5
    min_spin := 0
    sec_spin := 10
    vt_fall_triggered := false
    dispatched := [] }

/-- A concrete state after the armed gate has been cleared (e.g. right
after `stop_video`) while the trigger latch is still clear and the sink
is connected. -/
def disarmedState : AppState :=
  { armedState with monitoring_armed := false }

/-! ## The playback clock (src/v1.py, class `VideoThread`) -/

/-- The mutable state of `VideoThread` (src/v1.py lines 144-239): the stop
flag, the pause flag, the frame counter driving the simulated elapsed
time `current_frame / fps`, and the one-shot latch of the fallback-timer
signal. -/
structure VTState where
  stopFlag : Bool
  paused : Bool
  current_frame : Nat
  fall_triggered : Bool
  deriving DecidableEq, Repr

/-- The thread state entering `run` (src/v1.py lines 151-163, 174-175). -/
def VTState.init (start_frame : Nat) (fall_already_triggered : Bool) : VTState :=
  ⟨false, false, start_frame, fall_already_triggered⟩

/-- The interactions with a `VideoThread`: one iteration of the `run` loop
in which a frame was successfully read, and the cross-thread commands
`toggle_pause`, `stop` and `mark_fall_triggered`. -/
inductive VTEvent where
  | tick
  | togglePause
  | stop
  | markFall
  deriving DecidableEq, Repr

/-- One step of the playback clock, returning the new state together with
the frame indices at which `fall_by_timer` was emitted during the step.
A `tick` while stopped does nothing (the loop breaks, src/v1.py lines
182-186); a `tick` while paused does nothing (the loop is parked in the
condition-variable wait, lines 180-181, so no frame is read and
`current_frame` does not advance).  Otherwise the iteration computes
`current_time = current_frame / fps`, emits the one-shot fallback signal
when the latch is clear and `current_time >= fall_time_sec` (lines
199-202, an inclusive comparison), and advances the frame counter (line
209).  `toggle_pause`, `stop` and `mark_fall_triggered` are lines
215-239. -/
def vtStep (fps fall_time_sec : ℚ) (s : VTState) : VTEvent → VTState × List Nat
  | .tick =>
      if s.stopFlag || s.paused then (s, [])
      else
        let current_time : ℚ := s.current_frame / fps
        let fire := !s.fall_triggered && decide (fall_time_sec ≤ current_time)
        ({ s with
            fall_triggered := s.fall_triggered || fire
            current_frame := s.current_frame + 1 },
         if fire then [s.current_frame] else [])
  | .togglePause => ({ s with paused := !s.paused }, [])
  | .stop => ({ s with stopFlag := true, paused := false }, [])
  | .markFall => ({ s with fall_triggered := true }, [])

/-- A run of the playback clock over a sequence of events, collecting all
fallback-signal emissions in order. -/
def vtRun (fps fall_time_sec : ℚ) (s : VTState) : List VTEvent → VTState × List Nat
  | [] => (s, [])
  | e :: evs =>
      let step := vtStep fps fall_time_sec s e
      let rest := vtRun fps fall_time_sec step.1 evs
      (rest.1, step.2 ++ rest.2)

/-! ## The live-feed listener transport (src/v1.py, `MmwaveMqttThread`) -/

/-- What the nested `on_message` handler (src/v1.py lines 109-116) does
with one inbound MQTT message: emit a decoded payload to the UI thread,
or emit the `"mmWave parse error: ..."` status line. -/
inductive ListenerAction where
  | emitMessage : Payload → ListenerAction
  | parseError : ListenerAction
  deriving DecidableEq, Repr

/-- Python `str.strip()`: drop whitespace from both ends. -/
def stripChars (l : List Char) : List Char :=
  ((l.dropWhile Char.isWhitespace).reverse.dropWhile Char.isWhitespace).reverse

/-- The `on_message` handler (src/v1.py lines 109-116).  `parseJson`
stands for `json.loads`, returning `none` when it raises.  A message
whose stripped text does not start with `"\x7b"` is never given to
`json.loads`: it is wrapped as `{"raw": raw}`.  Either way the decoded
dict gets the extra `"_topic"` key, and a `json.loads` failure is caught
and reported as a status line — the handler never escapes an exception,
so the listener loop continues in every case. -/
def mqtt_on_message (parseJson : String → Option Payload)
    (topic raw : String) : ListenerAction :=
  if beginsWith "\x7b".data (stripChars raw.data) then
    match parseJson raw with
    | some d => .emitMessage (pset d "_topic" (.pyStr topic))
    | none => .parseError
  else
    .emitMessage (pset [("raw", .pyStr raw)] "_topic" (.pyStr topic))

/-! ## The MQTT-publishing variant (src/videomqtt.py) -/

namespace MQ

/-- `data_config.json` after loading (src/videomqtt.py lines 175-190). -/
structure DataConfig where
  room_id : String
  status : String
  nilai_sensor : ℚ
  deriving DecidableEq, Repr

/-- `rsi_config.json` after loading (src/videomqtt.py lines 192-200). -/
structure RsiConfig where
  device_id : String
  heart_rate : Int
  breath_rate : Int
  distance : ℚ
  deriving DecidableEq, Repr

/-- The payload published to `topic_hitam` (src/videomqtt.py lines
324-329, 341-342).  `fall_detected` is present only when the
`fall_detected` argument of `publish_alerts` was not `None`. -/
structure HitamPayload where
  room_id : String
  status : String
  nilai_sensor : ℚ
  timestamp : String
  fall_detected : Option Int
  deriving DecidableEq, Repr

/-- The payload published to `topic_rsi` (src/videomqtt.py lines 331-339,
341-343). -/
structure RsiPayload where
  device_id : String
  room_id : String
  breath_rate : Int
  heart_rate : Int
  distance : ℚ
  presence : Bool
  timestamp : String
  fall_detected : Option Int
  deriving DecidableEq, Repr

/-- The state of the videomqtt `FallAlarmTester` window relevant to the
publishing core; `published` lists the pairs of payloads handed to the
broker, in order. -/
structure MQState where
  mqtt_connected : Bool
  data_config : DataConfig
  rsi_config : RsiConfig
  event_emitted : Bool
  last_frame : Nat
  published : List (HitamPayload × RsiPayload)
  deriving DecidableEq, Repr

/-- `_presence_from_status` (src/videomqtt.py lines 302-304). -/
def presence_from_status (status_value : String) : Bool :=
  status_value != "NO_PEOPLE"

/-- `FallAlarmTester.publish_alerts` (src/videomqtt.py lines 309-360):
when not connected, show an error and publish nothing (returns `False`);
otherwise build the two payloads — `status_override or
data_config["status"]`, where Python `or` also falls through on the empty
string — and publish both with `fall_detected = int(bool(x))` appended
when the argument is not `None`.  `ts` stands for `_now_iso()`; broker
publication itself is assumed to succeed (the external `publish` return
codes are not modelled). -/
def publish_alerts (status_override : Option String) (fall_detected : Option Bool)
    (ts : String) (s : MQState) : MQState × Bool :=
  if !s.mqtt_connected then (s, false)
  else
    let status_value :=
      match status_override with
      | some sv => if sv = "" then s.data_config.status else sv
      | none => s.data_config.status
    let presence := presence_from_status status_value
    let fd : Option Int := fall_detected.map (fun b => if b then 1 else 0)
    let ph : HitamPayload :=
      { room_id := s.data_config.room_id
        status := status_value
        nilai_sensor := s.data_config.nilai_sensor
        timestamp := ts
        fall_detected := fd }
    let pr : RsiPayload :=
      { device_id := s.rsi_config.device_id
        room_id := s.data_config.room_id
        breath_rate := s.rsi_config.breath_rate
        heart_rate := s.rsi_config.heart_rate
        distance := s.rsi_config.distance
        presence := presence
        timestamp := ts
        fall_detected := fd }
    ({ s with published := s.published ++ [(ph, pr)] }, true)

/-- `FallAlarmTester.on_event_time_reached` (src/videomqtt.py lines
703-728): set the event latch, then publish a fall alert when the
configured status is `"PEOPLE_FALL"` and a no-fall record with the
configured status otherwise.  The boolean results only drive message
boxes. -/
def on_event_time_reached (ts : String) (s : MQState) : MQState :=
  let s1 := { s with event_emitted := true }
  let status_cfg := s1.data_config.status
  if status_cfg = "PEOPLE_FALL" then
    (publish_alerts (some "PEOPLE_FALL") (some true) ts s1).1
  else
    (publish_alerts (some status_cfg) (some false) ts s1).1

/-- `FallAlarmTester.stop_video` (src/videomqtt.py lines 663-680): after
stopping the thread (whose saved position is immediately overwritten by
the full reset at lines 671-672) the frame position and the event latch
are reset; nothing is published. -/
def stop_video (s : MQState) : MQState :=
  { s with last_frame := 0, event_emitted := false }

/-- The `"status"` normalization in `FallAlarmTester.load_data_config`
(src/videomqtt.py lines 175-190).  `stored` is the value under the
`"status"` key of `data_config.json`; `none` covers both an absent key
and a missing/unreadable file, for which `_load_json`'s `setdefault`
supplies the default `"PEOPLE"`.  A boolean is rewritten first; then any
value other than the three allowed strings is replaced by `"PEOPLE"`. -/
def load_data_config_status (stored : Option PyVal) : String :=
  let v := stored.getD (.pyStr "PEOPLE")
  let v1 :=
    match v with
    | .pyBool b => PyVal.pyStr (if b then "PEOPLE_FALL" else "PEOPLE")
    | w => w
  match v1 with
  | .pyStr st =>
      if st = "PEOPLE" ∨ st = "PEOPLE_FALL" ∨ st = "NO_PEOPLE" then st
      else "PEOPLE"
  | _ => "PEOPLE"

/-- A concrete connected state used to instantiate theorems. -/
def connectedState : MQState :=
  { mqtt_connected := true
    data_config := { room_id := "ROOM_01", status := "PEOPLE_FALL", nilai_sensor := 0 }
    rsi_config := { device_id := "RSI-001", heart_rate := 72, breath_rate := 16, distance := 0 }
    event_emitted := false
    last_frame := 0
    published := [] }

end MQ

/-! ## Theorems -/

theorem truthyFallDetected_eq_mem (v : Option PyVal) :
    truthyFallDetected v =
      (match v with
       | some w => decide (w ∈ [PyVal.pyInt 1, PyVal.pyBool true,
           PyVal.pyStr "1", PyVal.pyStr "true", PyVal.pyStr "TRUE"])
       | none => false) := by
  match v with
  | none => rfl
  | some (.pyInt n) =>
      simp only [truthyFallDetected, List.mem_cons, List.not_mem_nil, or_false]
      by_cases h : n = 1
      · subst h; simp
      · simp [h]
  | some (.pyBool b) =>
      cases b <;> simp [truthyFallDetected]
  | some (.pyStr s) =>
      simp only [truthyFallDetected, List.mem_cons, List.not_mem_nil, or_false]
      by_cases h1 : s = "1"
      · subst h1; simp
      · by_cases h2 : s = "true"
        · subst h2; simp
        · by_cases h3 : s = "TRUE"
          · subst h3; simp
          · simp [h1, h2, h3]
  | some .pyNone => rfl
  | some .pyOther => rfl

theorem trigger_fall_of_latched (src : String) (p : Payload) (s : AppState)
    (h : s.fall_triggered = true) : trigger_fall src p s = s := by
  simp [trigger_fall, h]

theorem on_mmwave_message_of_latched (p : Payload) (s : AppState)
    (h : s.fall_triggered = true) : on_mmwave_message p s = s := by
  unfold on_mmwave_message on_mmwave_message_traced
  by_cases ha : s.monitoring_armed
  · by_cases hf : payload_is_fall p
    · simp [ha, hf, trigger_fall_of_latched _ _ _ h]
    · simp [ha, hf]
  · simp [ha]

theorem sessionStep_of_latched (s : AppState) (e : SessionEvent)
    (h : s.fall_triggered = true) : sessionStep s e = s := by
  cases e with
  | triggerCall src p => exact trigger_fall_of_latched src p s h
  | mmwaveMessage p => exact on_mmwave_message_of_latched p s h

theorem runSession_of_latched (evs : List SessionEvent) : ∀ s : AppState,
    s.fall_triggered = true → runSession s evs = s := by
  induction evs with
  | nil => intro s _; rfl
  | cons e evs ih =>
      intro s h
      show runSession (sessionStep s e) evs = s
      rw [sessionStep_of_latched s e h, ih s h]

theorem trigger_fall_of_clear (src : String) (p : Payload) (s : AppState)
    (h : s.fall_triggered = false) :
    (trigger_fall src p s).fall_triggered = true
    ∧ (trigger_fall src p s).dispatched
        = s.dispatched ++ (if s.db_connected then [mkAlertRecord s src p] else []) := by
  by_cases hm : src = "mmwave" <;> by_cases hd : s.db_connected <;>
    simp [trigger_fall, mkAlertRecord, h, hm, hd]

theorem sessionStep_measure (s : AppState) (e : SessionEvent) :
    (sessionStep s e).dispatched.length
        + (if (sessionStep s e).fall_triggered then 0 else 1)
      ≤ s.dispatched.length + (if s.fall_triggered then 0 else 1) := by
  by_cases h : s.fall_triggered = true
  · rw [sessionStep_of_latched s e h]
  · rw [Bool.not_eq_true] at h
    cases e with
    | triggerCall src p =>
        have hc := trigger_fall_of_clear src p s h
        simp only [sessionStep]
        simp only [hc.1, hc.2, h]
        by_cases hd : s.db_connected <;> simp [hd]
    | mmwaveMessage p =>
        simp only [sessionStep]
        unfold on_mmwave_message on_mmwave_message_traced
        by_cases ha : s.monitoring_armed
        · by_cases hf : payload_is_fall p
          · have hc := trigger_fall_of_clear "mmwave" p s h
            simp only [ha, hf, Bool.not_true, Bool.false_eq_true, if_false, if_true]
            simp only [hc.1, hc.2, h]
            by_cases hd : s.db_connected <;> simp [hd]
          · simp [ha, hf]
        · simp [ha]

theorem runSession_measure (evs : List SessionEvent) : ∀ s : AppState,
    (runSession s evs).dispatched.length
        + (if (runSession s evs).fall_triggered then 0 else 1)
      ≤ s.dispatched.length + (if s.fall_triggered then 0 else 1) := by
  induction evs with
  | nil => intro s; exact le_rfl
  | cons e evs ih =>
      intro s
      calc (runSession (sessionStep s e) evs).dispatched.length
              + (if (runSession (sessionStep s e) evs).fall_triggered then 0 else 1)
          ≤ (sessionStep s e).dispatched.length
              + (if (sessionStep s e).fall_triggered then 0 else 1) := ih _
        _ ≤ _ := sessionStep_measure s e

/-- C1: per monitoring session at most one alert record is dispatched to
the sink.  For any sequence of trigger calls and mmWave messages starting
with the latch clear, the dispatched list grows by at most one; a
`trigger_fall` call that finds the latch clear sets the latch and — with
the sink connected — performs the single dispatch; and any call that
finds the latch set returns without dispatching or changing state, as
does every whole session started with the latch set. -/
theorem session_at_most_one_dispatch :
    (∀ (s : AppState) (evs : List SessionEvent), s.fall_triggered = false →
        (runSession s evs).dispatched.length ≤ s.dispatched.length + 1)
    ∧ (∀ (s : AppState) (src : String) (p : Payload), s.fall_triggered = false →
        (trigger_fall src p s).fall_triggered = true
        ∧ (s.db_connected = true →
            (trigger_fall src p s).dispatched = s.dispatched ++ [mkAlertRecord s src p]))
    ∧ (∀ (src : String) (p : Payload) (s : AppState), s.fall_triggered = true →
        trigger_fall src p s = s)
    ∧ (∀ (s : AppState) (evs : List SessionEvent), s.fall_triggered = true →
        runSession s evs = s) := by
  refine ⟨fun s evs h => ?_, fun s src p h => ?_, trigger_fall_of_latched,
    fun s evs h => runSession_of_latched evs s h⟩
  · have hb := runSession_measure evs s
    rw [h] at hb
    calc (runSession s evs).dispatched.length
        ≤ (runSession s evs).dispatched.length
            + (if (runSession s evs).fall_triggered then 0 else 1) := Nat.le_add_right _ _
      _ ≤ s.dispatched.length + 1 := by simpa using hb
  · have hc := trigger_fall_of_clear src p s h
    exact ⟨hc.1, fun hd => by rw [hc.2, hd]; simp⟩

theorem session_at_most_one_dispatch_witness :
    armedState.fall_triggered = false
    ∧ (runSession armedState
        [SessionEvent.mmwaveMessage [("fall_detected", .pyInt 1)],
         SessionEvent.triggerCall "fallback_timer" []]).dispatched.length
        ≤ armedState.dispatched.length + 1
    ∧ (trigger_fall "fallback_timer" [] armedState).fall_triggered = true :=
  ⟨rfl,
   session_at_most_one_dispatch.1 armedState
     [SessionEvent.mmwaveMessage [("fall_detected", .pyInt 1)],
      SessionEvent.triggerCall "fallback_timer" []] rfl,
   (session_at_most_one_dispatch.2.1 armedState "fallback_timer" [] rfl).1⟩

/-- C2 counterexample: a `trigger_fall` call (the path the fallback-timer
signal is wired to, src/v1.py lines 711-713) made while the armed gate is
false but the latch is clear and the sink connected — reachable when a
queued `fall_by_timer` emission is delivered after `stop_video` has
disarmed and reset the latch — dispatches one alert record and sets the
latch, contradicting the claim that every signal delivered while not
Armed produces zero dispatches and no state change. -/
theorem unarmed_fallback_trigger_dispatches :
    disarmedState.monitoring_armed = false
    ∧ disarmedState.fall_triggered = false
    ∧ (trigger_fall "fallback_timer" [("fall_at_sec", .pyInt 10)] disarmedState).dispatched.length = 1
    ∧ (trigger_fall "fallback_timer" [("fall_at_sec", .pyInt 10)] disarmedState).fall_triggered = true := by
  refine ⟨rfl, rfl, ?_, ?_⟩ <;> rfl

/-- C2 amended: only live-feed signals are gated on the armed state — an
mmWave message delivered while `monitoring_armed` is false is dropped by
the listener with no dispatch and no state change; the `trigger_fall`
path itself checks only the triggered latch, so it drops a signal (from
any source) exactly when the latch is already set. -/
theorem unarmed_live_feed_dropped :
    (∀ (p : Payload) (s : AppState), s.monitoring_armed = false →
        on_mmwave_message p s = s)
    ∧ (∀ (src : String) (p : Payload) (s : AppState), s.fall_triggered = true →
        trigger_fall src p s = s) := by
  refine ⟨fun p s h => ?_, trigger_fall_of_latched⟩
  unfold on_mmwave_message on_mmwave_message_traced
  simp [h]

theorem unarmed_live_feed_dropped_witness :
    on_mmwave_message [("fall_detected", .pyInt 1)] disarmedState = disarmedState
    ∧ trigger_fall "mmwave" [] { disarmedState with fall_triggered := true }
        = { disarmedState with fall_triggered := true } :=
  ⟨unarmed_live_feed_dropped.1 [("fall_detected", .pyInt 1)] disarmedState rfl,
   unarmed_live_feed_dropped.2 "mmwave" [] { disarmedState with fall_triggered := true } rfl⟩

/-- C4 counterexample: a fall payload delivered while the armed gate is
false is dropped by `on_mmwave_message` before the classification
predicate is evaluated and before any forwarding attempt — the armed
gating happens in the listener, and classification does depend on the
session state for whether it runs at all. -/
theorem classification_gated_by_listener :
    payload_is_fall [("fall_detected", .pyInt 1)] = true
    ∧ disarmedState.monitoring_armed = false
    ∧ (on_mmwave_message_traced [("fall_detected", .pyInt 1)] disarmedState).classified = false
    ∧ (on_mmwave_message_traced [("fall_detected", .pyInt 1)] disarmedState).forwarded = false := by
  refine ⟨?_, rfl, ?_, ?_⟩ <;> rfl

/-- C4 amended: the classification predicate is a pure function of the
raw payload (`payload_is_fall` takes no state), but the listener
evaluates it exactly when the session is armed, and it forwards to the
trigger path exactly when the session is armed and the payload is
classified as a fall — the armed gate is checked by the listener, not by
the trigger path. -/
theorem classification_iff_armed :
    (∀ (p : Payload) (s : AppState),
        (on_mmwave_message_traced p s).classified = s.monitoring_armed)
    ∧ (∀ (p : Payload) (s : AppState),
        (on_mmwave_message_traced p s).forwarded
          = (s.monitoring_armed && payload_is_fall p)) := by
  constructor <;> intro p s <;>
    by_cases ha : s.monitoring_armed <;> by_cases hf : payload_is_fall p <;>
      simp [on_mmwave_message_traced, ha, hf]

/-- C7: `stop_video`, called in any state, disarms the session (state
Idle), resets the elapsed simulated time and frame position to zero,
clears the triggered latch, and dispatches nothing — so a session stopped
before any trigger has produced zero dispatches; the videomqtt variant's
`stop_video` likewise resets the frame position and event latch and
publishes nothing. -/
theorem stop_video_resets :
    (∀ s : AppState,
        (stop_video s).monitoring_armed = false
        ∧ (stop_video s).current_time_sec = 0
        ∧ (stop_video s).fall_triggered = false
        ∧ (stop_video s).last_frame = 0
        ∧ (stop_video s).dispatched = s.dispatched)
    ∧ (∀ s : AppState, s.dispatched = [] → (stop_video s).dispatched = [])
    ∧ (∀ s : MQ.MQState,
        (MQ.stop_video s).last_frame = 0
        ∧ (MQ.stop_video s).event_emitted = false
        ∧ (MQ.stop_video s).published = s.published) :=
  ⟨fun _ => ⟨rfl, rfl, rfl, rfl, rfl⟩, fun _ h => h, fun _ => ⟨rfl, rfl, rfl⟩⟩

theorem stop_video_resets_witness :
    (stop_video armedState).monitoring_armed = false
    ∧ (stop_video armedState).dispatched = [] :=
  ⟨((stop_video_resets.1 armedState).1),
   stop_video_resets.2.1 armedState rfl⟩

theorem vtStep_latched (fps T : ℚ) (s : VTState) (e : VTEvent)
    (h : s.fall_triggered = true) :
    (vtStep fps T s e).1.fall_triggered = true ∧ (vtStep fps T s e).2 = [] := by
  cases e with
  | tick =>
      unfold vtStep
      by_cases hsp : (s.stopFlag || s.paused) = true
      · simp [hsp, h]
      · simp [hsp, h]
  | togglePause => exact ⟨h, rfl⟩
  | stop => exact ⟨h, rfl⟩
  | markFall => exact ⟨rfl, rfl⟩

theorem vtRun_latched (fps T : ℚ) (evs : List VTEvent) : ∀ s : VTState,
    s.fall_triggered = true → (vtRun fps T s evs).2 = [] := by
  induction evs with
  | nil => intro s _; rfl
  | cons e evs ih =>
      intro s h
      have hstep := vtStep_latched fps T s e h
      show ((vtStep fps T s e).2 ++ (vtRun fps T (vtStep fps T s e).1 evs).2) = []
      rw [hstep.2, ih _ hstep.1]
      rfl

theorem vtRun_ticks_emissions (fps T : ℚ) : ∀ (n f : ℕ),
    (vtRun fps T ⟨false, false, f, false⟩ (List.replicate n .tick)).2
      = ((List.range' f n).find? (fun k : ℕ => decide (T ≤ (k : ℚ) / fps))).toList := by
  intro n
  induction n with
  | zero => intro f; rfl
  | succ n ih =>
      intro f
      rw [List.replicate_succ, List.range'_succ]
      by_cases hT : T ≤ (f : ℚ) / fps
      · have hstep : vtStep fps T ⟨false, false, f, false⟩ .tick
            = (⟨false, false, f + 1, true⟩, [f]) := by
          simp [vtStep, hT]
        show ((vtStep fps T ⟨false, false, f, false⟩ .tick).2
            ++ (vtRun fps T (vtStep fps T ⟨false, false, f, false⟩ .tick).1
                  (List.replicate n .tick)).2) = _
        rw [hstep]
        rw [vtRun_latched fps T (List.replicate n .tick) ⟨false, false, f + 1, true⟩ rfl]
        rw [List.find?_cons_of_pos _ (by simpa using hT)]
        rfl
      · have hstep : vtStep fps T ⟨false, false, f, false⟩ .tick
            = (⟨false, false, f + 1, false⟩, []) := by
          simp [vtStep, hT]
        show ((vtStep fps T ⟨false, false, f, false⟩ .tick).2
            ++ (vtRun fps T (vtStep fps T ⟨false, false, f, false⟩ .tick).1
                  (List.replicate n .tick)).2) = _
        rw [hstep]
        rw [List.find?_cons_of_neg _ (by simpa using hT)]
        simpa using ih (f + 1)

/-- C5: in a run of the playback clock from frame 0 with the one-shot
latch clear, the fallback threshold-crossing signal is emitted exactly at
the first loop iteration whose elapsed simulated time
`current_frame / fps` satisfies `fall_time_sec <= elapsed` (and not at
all if no iteration reaches the threshold); consequently it is emitted at
most once per run; and the comparison is inclusive: with `fps = 1` and
threshold `10`, the signal fires at frame 10, where the elapsed time
equals the threshold exactly. -/
theorem fallback_fires_at_first_crossing :
    (∀ (fps T : ℚ) (n : ℕ),
        (vtRun fps T (VTState.init 0 false) (List.replicate n .tick)).2
          = ((List.range n).find? (fun k : ℕ => decide (T ≤ (k : ℚ) / fps))).toList)
    ∧ (∀ (fps T : ℚ) (n : ℕ),
        ((vtRun fps T (VTState.init 0 false) (List.replicate n .tick)).2).length ≤ 1)
    ∧ (vtRun 1 10 (VTState.init 0 false) (List.replicate 11 .tick)).2 = [10]
    ∧ (10 : ℚ) / 1 = 10 := by
  have main : ∀ (fps T : ℚ) (n : ℕ),
      (vtRun fps T (VTState.init 0 false) (List.replicate n .tick)).2
        = ((List.range n).find? (fun k : ℕ => decide (T ≤ (k : ℚ) / fps))).toList := by
    intro fps T n
    rw [List.range_eq_range']
    exact vtRun_ticks_emissions fps T n 0
  refine ⟨main, fun fps T n => ?_, ?_, by norm_num⟩
  · rw [main]
    cases (List.range n).find? (fun k : ℕ => decide (T ≤ (k : ℚ) / fps)) <;>
      simp [Option.toList]
  · rw [main 1 10 11]
    have h11 : List.range 11 = List.range 10 ++ [10] := by decide
    have hnone : (List.range 10).find? (fun k : ℕ => decide ((10 : ℚ) ≤ (k : ℚ) / 1)) = none := by
      rw [List.find?_eq_none]
      intro x hx
      rw [List.mem_range] at hx
      simp only [decide_eq_true_eq, div_one, not_le]
      exact_mod_cast hx
    have hpos : (fun k : ℕ => decide ((10 : ℚ) ≤ (k : ℚ) / 1)) 10 = true := by
      simp only [decide_eq_true_eq]
      norm_num
    have hsingle : ∀ (p : ℕ → Bool), p 10 = true → List.find? p [10] = some 10 := by
      intro p hp
      unfold List.find?
      rw [hp]
    rw [h11, List.find?_append, hnone, hsingle _ hpos]
    rfl

theorem vtStep_frame_monotone (fps T : ℚ) (s : VTState) (e : VTEvent) :
    s.current_frame ≤ (vtStep fps T s e).1.current_frame := by
  cases e with
  | tick =>
      unfold vtStep
      by_cases hsp : (s.stopFlag || s.paused) = true
      · simp [hsp]
      · simp [hsp]
  | togglePause => exact le_rfl
  | stop => exact le_rfl
  | markFall => exact le_rfl

/-- C6: while the playback clock is paused a loop iteration does not
advance the frame counter (the elapsed simulated time is frozen);
`toggle_pause` never changes the frame counter (so pausing never resets
the elapsed time); every step, and hence every run, is monotone
non-decreasing in the frame counter; and resuming a paused, non-stopped
clock continues from exactly the paused frame — the next iteration
advances it by one from the value at which it was paused. -/
theorem elapsed_frozen_while_paused :
    (∀ (fps T : ℚ) (s : VTState), s.paused = true →
        (vtStep fps T s .tick).1.current_frame = s.current_frame)
    ∧ (∀ (fps T : ℚ) (s : VTState),
        (vtStep fps T s .togglePause).1.current_frame = s.current_frame)
    ∧ (∀ (fps T : ℚ) (s : VTState) (e : VTEvent),
        s.current_frame ≤ (vtStep fps T s e).1.current_frame)
    ∧ (∀ (fps T : ℚ) (evs : List VTEvent) (s : VTState),
        s.current_frame ≤ (vtRun fps T s evs).1.current_frame)
    ∧ (∀ (fps T : ℚ) (s : VTState), s.paused = true → s.stopFlag = false →
        (vtStep fps T (vtStep fps T s .togglePause).1 .tick).1.current_frame
          = s.current_frame + 1) := by
  refine ⟨fun fps T s h => by simp [vtStep, h], fun fps T s => rfl,
    vtStep_frame_monotone, fun fps T evs => ?_, fun fps T s hp hs => ?_⟩
  · induction evs with
    | nil => intro s; exact le_rfl
    | cons e evs ih =>
        intro s
        exact le_trans (vtStep_frame_monotone fps T s e) (ih (vtStep fps T s e).1)
  · simp [vtStep, hp, hs]

theorem elapsed_frozen_while_paused_witness :
    (vtStep 1 10 ⟨false, true, 3, false⟩ .tick).1.current_frame = 3
    ∧ (vtStep 1 10 (vtStep 1 10 ⟨false, true, 3, false⟩ .togglePause).1
        .tick).1.current_frame = 3 + 1 :=
  ⟨elapsed_frozen_while_paused.1 1 10 ⟨false, true, 3, false⟩ rfl,
   elapsed_frozen_while_paused.2.2.2.2 1 10 ⟨false, true, 3, false⟩ rfl rfl⟩

/-- C8 counterexample: an inbound message whose stripped text starts with
a brace but is not valid JSON — such as `"\x7boops"`, on which
`json.loads` raises, here rendered by the parse oracle returning `none` —
is NOT wrapped as a raw-text payload: the handler reports a parse-error
status and emits no message at all, contradicting the claim that every
payload that cannot be parsed as a structured map is wrapped under a
single field. -/
theorem brace_malformed_not_wrapped :
    mqtt_on_message (fun _ => none) "topic" "\x7boops" = .parseError
    ∧ mqtt_on_message (fun _ => none) "topic" "\x7boops"
        ≠ .emitMessage [("raw", .pyStr "\x7boops"), ("_topic", .pyStr "topic")] := by
  exact ⟨rfl, by decide⟩

/-- C8 amended: an inbound payload whose stripped text does not start
with `"\x7b"` is wrapped as a raw-text payload under the single field
`"raw"` (plus the listener's `"_topic"` annotation key) and every such
wrapped payload is classified as not-a-fall; a payload whose stripped
text does start with `"\x7b"` but fails JSON parsing is dropped with a
parse-error status instead of being wrapped.  In both cases the handler
returns normally (the exception is caught), so the listener continues. -/
theorem nonjson_wrapped_not_fall :
    (∀ (parse : String → Option Payload) (topic raw : String),
        beginsWith "\x7b".data (stripChars raw.data) = false →
          mqtt_on_message parse topic raw
            = .emitMessage [("raw", .pyStr raw), ("_topic", .pyStr topic)])
    ∧ (∀ (topic raw : String),
        payload_is_fall [("raw", .pyStr raw), ("_topic", .pyStr topic)] = false)
    ∧ (∀ (parse : String → Option Payload) (topic raw : String),
        beginsWith "\x7b".data (stripChars raw.data) = true → parse raw = none →
          mqtt_on_message parse topic raw = .parseError) := by
  refine ⟨fun parse topic raw h => ?_, fun topic raw => rfl,
    fun parse topic raw h hp => ?_⟩
  · simp [mqtt_on_message, h, pset, pget]
  · simp [mqtt_on_message, h, hp]

theorem nonjson_wrapped_not_fall_witness :
    mqtt_on_message (fun _ => none) "rsi/mmwave/1" "hello"
        = .emitMessage [("raw", .pyStr "hello"), ("_topic", .pyStr "rsi/mmwave/1")]
    ∧ mqtt_on_message (fun _ => none) "rsi/mmwave/1" "\x7bbad" = .parseError :=
  ⟨nonjson_wrapped_not_fall.1 (fun _ => none) "rsi/mmwave/1" "hello" rfl,
   nonjson_wrapped_not_fall.2.2 (fun _ => none) "rsi/mmwave/1" "\x7bbad" rfl rfl⟩

/-- C9: in the MQTT-publishing variant, when the configured event time is
reached exactly one pair of payloads is published, and it is a fall alert
(status `"PEOPLE_FALL"`, `fall_detected = 1` in both topics) if and only
if the configured data status equals `"PEOPLE_FALL"`; for every other
configured status the published pair carries `fall_detected = 0` and the
configured status — reaching the time threshold alone never produces a
fall alert. -/
theorem event_time_fall_iff_people_fall :
    ∀ (s : MQ.MQState) (ts : String), s.mqtt_connected = true →
      ∃ ph pr,
        (MQ.on_event_time_reached ts s).published = s.published ++ [(ph, pr)]
        ∧ (MQ.on_event_time_reached ts s).event_emitted = true
        ∧ (s.data_config.status = "PEOPLE_FALL" →
            ph.status = "PEOPLE_FALL" ∧ ph.fall_detected = some 1
              ∧ pr.fall_detected = some 1)
        ∧ (s.data_config.status ≠ "PEOPLE_FALL" →
            ph.status = s.data_config.status ∧ ph.fall_detected = some 0
              ∧ pr.fall_detected = some 0) := by
  intro s ts hc
  by_cases h : s.data_config.status = "PEOPLE_FALL"
  · refine ⟨(⟨s.data_config.room_id, "PEOPLE_FALL", s.data_config.nilai_sensor, ts,
        some 1⟩ : MQ.HitamPayload),
      (⟨s.rsi_config.device_id, s.data_config.room_id, s.rsi_config.breath_rate,
        s.rsi_config.heart_rate, s.rsi_config.distance,
        MQ.presence_from_status "PEOPLE_FALL", ts, some 1⟩ : MQ.RsiPayload),
      ?_, ?_, fun _ => ⟨rfl, rfl, rfl⟩, fun hn => absurd h hn⟩
    · simp [MQ.on_event_time_reached, MQ.publish_alerts, h, hc]
    · simp [MQ.on_event_time_reached, MQ.publish_alerts, h, hc]
  · refine ⟨(⟨s.data_config.room_id, s.data_config.status, s.data_config.nilai_sensor,
        ts, some 0⟩ : MQ.HitamPayload),
      (⟨s.rsi_config.device_id, s.data_config.room_id, s.rsi_config.breath_rate,
        s.rsi_config.heart_rate, s.rsi_config.distance,
        MQ.presence_from_status s.data_config.status, ts, some 0⟩ : MQ.RsiPayload),
      ?_, ?_, fun hy => absurd hy h, fun _ => ⟨rfl, rfl, rfl⟩⟩
    · simp [MQ.on_event_time_reached, MQ.publish_alerts, h, hc]
    · simp [MQ.on_event_time_reached, MQ.publish_alerts, h, hc]

theorem event_time_fall_iff_people_fall_witness :
    (MQ.on_event_time_reached "2026-01-01T00:00:00+00:00" MQ.connectedState).event_emitted
      = true := by
  obtain ⟨ph, pr, h1, h2, h3, h4⟩ :=
    event_time_fall_iff_people_fall MQ.connectedState "2026-01-01T00:00:00+00:00" rfl
  exact h2

/-- C10: the loaded data configuration's status is always one of
`"PEOPLE"`, `"PEOPLE_FALL"`, `"NO_PEOPLE"`: a stored boolean `true` is
normalized to `"PEOPLE_FALL"`, a stored boolean `false` to `"PEOPLE"`,
and every stored non-boolean value outside the three allowed strings is
replaced by `"PEOPLE"`. -/
theorem load_data_config_status_valid :
    (∀ stored : Option PyVal,
        MQ.load_data_config_status stored = "PEOPLE"
        ∨ MQ.load_data_config_status stored = "PEOPLE_FALL"
        ∨ MQ.load_data_config_status stored = "NO_PEOPLE")
    ∧ MQ.load_data_config_status (some (.pyBool true)) = "PEOPLE_FALL"
    ∧ MQ.load_data_config_status (some (.pyBool false)) = "PEOPLE"
    ∧ (∀ v : PyVal, (∀ b, v ≠ .pyBool b) →
        v ≠ .pyStr "PEOPLE" → v ≠ .pyStr "PEOPLE_FALL" → v ≠ .pyStr "NO_PEOPLE" →
        MQ.load_data_config_status (some v) = "PEOPLE") := by
  refine ⟨fun stored => ?_, rfl, rfl, fun v hb h1 h2 h3 => ?_⟩
  · match stored with
    | none => exact Or.inl rfl
    | some (.pyInt n) => exact Or.inl rfl
    | some .pyNone => exact Or.inl rfl
    | some .pyOther => exact Or.inl rfl
    | some (.pyBool true) => exact Or.inr (Or.inl rfl)
    | some (.pyBool false) => exact Or.inl rfl
    | some (.pyStr st) =>
        by_cases hs : st = "PEOPLE" ∨ st = "PEOPLE_FALL" ∨ st = "NO_PEOPLE"
        · rcases hs with h | h | h <;> subst h
          · exact Or.inl (by simp [MQ.load_data_config_status])
          · exact Or.inr (Or.inl (by simp [MQ.load_data_config_status]))
          · exact Or.inr (Or.inr (by simp [MQ.load_data_config_status]))
        · exact Or.inl (by simp [MQ.load_data_config_status, hs])
  · match v with
    | .pyInt n => rfl
    | .pyNone => rfl
    | .pyOther => rfl
    | .pyBool b => exact absurd rfl (hb b)
    | .pyStr st =>
        have hs1 : st ≠ "PEOPLE" := fun h => h1 (by rw [h])
        have hs2 : st ≠ "PEOPLE_FALL" := fun h => h2 (by rw [h])
        have hs3 : st ≠ "NO_PEOPLE" := fun h => h3 (by rw [h])
        simp [MQ.load_data_config_status, hs1, hs2, hs3]

theorem load_data_config_status_valid_witness :
    MQ.load_data_config_status (some (.pyInt 7)) = "PEOPLE"
    ∧ (MQ.load_data_config_status (some (.pyStr "NO_PEOPLE")) = "PEOPLE"
        ∨ MQ.load_data_config_status (some (.pyStr "NO_PEOPLE")) = "PEOPLE_FALL"
        ∨ MQ.load_data_config_status (some (.pyStr "NO_PEOPLE")) = "NO_PEOPLE") :=
  ⟨load_data_config_status_valid.2.2.2 (.pyInt 7) (fun b => by cases b <;> decide)
      (by decide) (by decide) (by decide),
   load_data_config_status_valid.1 (some (.pyStr "NO_PEOPLE"))⟩

/-- C3: the fall-classification predicate implements exactly the
documented ordered four-rule decision (for every payload the code's
predicate agrees with the spec's), and it gives the documented answers on
the five literal example payloads. -/
theorem payload_is_fall_matches_spec :
    (∀ p : Payload, payload_is_fall p = spec_is_fall p)
    ∧ payload_is_fall [("fall_detected", .pyInt 1)] = true
    ∧ payload_is_fall [("status", .pyStr "PERSON_FALL_EVENT")] = true
    ∧ payload_is_fall [("classification", .pyStr "Fall")] = true
    ∧ payload_is_fall [("event", .pyStr "normal")] = false
    ∧ payload_is_fall [] = false := by
  refine ⟨fun p => ?_, by decide, by decide, by decide, by decide, by decide⟩
  simp only [payload_is_fall, spec_is_fall, truthyFallDetected_eq_mem]

end UiPameran
